import Mathlib

/-!
Shallow embedding of the ProjectTimer repository
(src/project_timer.py, src/helpers.py).

Modelling conventions:
* Python `dict` (insertion-ordered, assignment replaces in place, new keys
  appended at the end) is modelled as an association list with `lookupA` /
  `setA`.
* ISO-8601 timestamp strings (which compare lexicographically, i.e.
  chronologically) are modelled as natural numbers with the usual order.
* Python floats holding hour values are modelled as rationals; `round(x, 1)`
  is modelled by `round1` (round to the nearest tenth; Python resolves exact
  half-tenth ties to even, this model rounds them up — no statement below
  evaluates at an exact half-tenth).
* GUI-only effects (labels, combobox, window title, bell, scheduling of the
  next `after` callback) are dropped; the observable alarm event is modelled
  as a counter `alarms` incremented by `Timer.alarm`.
* Operations that can raise a Python exception (`KeyError` on a missing dict
  key, `IndexError` on list indexing) return `Except Unit _`, with
  `Except.error ()` marking the raise.
-/

/-- Enum for timer status states (class TimerStatus in project_timer.py). -/
inductive TimerStatus where
  | stopped
  | paused
  | running
deriving DecidableEq, Repr

abbrev Timestamp := Nat

/-- A project's time log: the Python dict `{timestamp: hours}` as an
insertion-ordered association list. -/
abbrev TimeLog := List (Timestamp × ℚ)

/-- The persisted record `projects_data`: `{project_name: {timestamp: hours}}`. -/
abbrev ProjectsData := List (String × TimeLog)

/-- Lookup in an insertion-ordered association list (Python `d[k]` /
`k in d`, first occurrence). -/
def lookupA {α β : Type} [DecidableEq α] : List (α × β) → α → Option β
  | [], _ => none
  | (k, v) :: rest, k' => if k = k' then some v else lookupA rest k'

/-- Python dict assignment `d[k] = v`: replaces the value in place when the
key is present, appends at the end otherwise. -/
def setA {α β : Type} [DecidableEq α] : List (α × β) → α → β → List (α × β)
  | [], k, v => [(k, v)]
  | (k0, v0) :: rest, k, v =>
      if k0 = k then (k0, v) :: rest else (k0, v0) :: setA rest k v

/-- Python `round(q, 1)`: round to one decimal place. -/
def round1 (q : ℚ) : ℚ := ((⌊10 * q + 1/2⌋ : ℤ) : ℚ) / 10

/-- helpers.convert_seconds_to_hms. Python `//` is floor division and `%`
takes the divisor's sign, hence `Int.fdiv` / `Int.fmod`. -/
def convert_seconds_to_hms (total_seconds : Int) : Int × Int × Int :=
  let hours := Int.fdiv total_seconds 3600
  let remaining_seconds := Int.fmod total_seconds 3600
  let minutes := Int.fdiv remaining_seconds 60
  let seconds := Int.fmod remaining_seconds 60
  (hours, minutes, seconds)

/-- A whitespace character, as Python str.strip() treats the usual ASCII
whitespace. -/
def isSpaceChar (c : Char) : Bool :=
  c = ' ' ∨ c = '\t' ∨ c = '\n' ∨ c = '\r'

/-- Python `s.strip()`: drop leading and trailing whitespace (structural
definition over the character list so it evaluates). -/
def pyStrip (s : String) : String :=
  String.mk (((s.data.dropWhile isSpaceChar).reverse.dropWhile
    isSpaceChar).reverse)

/-- The in-memory state of a ProjectTimer instance: the fields of the Python
class that the timer logic reads or writes, plus the observable alarm count. -/
structure Timer where
  status : TimerStatus
  sessionTime : Int
  currentProject : Option String
  currentProjectHours : ℚ
  projectsData : ProjectsData
  alarms : Nat
deriving DecidableEq, Repr

/-- Python truthiness of `self.current_project` (`None` and `""` are falsy). -/
def falsyStr : Option String → Bool
  | none => true
  | some s => s = ""

/-- ProjectTimer.pause_timer (GUI styling dropped). -/
def pause_timer (t : Timer) : Timer := { t with status := TimerStatus.paused }

/-- ProjectTimer.alarm: the observable alarm event. -/
def Timer.alarm (t : Timer) : Timer := { t with alarms := t.alarms + 1 }

/-- ProjectTimer.update_display, the per-second tick body: accrue unless
paused (decrement for the CountDown pseudo-project, increment otherwise);
then, if the session time went negative, clamp to 0, pause, and raise the
alarm. Display refresh and rescheduling are GUI-only and dropped. -/
def update_display (t : Timer) : Timer :=
  let t1 :=
    if t.status ≠ TimerStatus.paused then
      if t.currentProject = some "CountDown" then
        { t with sessionTime := t.sessionTime - 1 }
      else
        { t with sessionTime := t.sessionTime + 1 }
    else t
  if t1.sessionTime < 0 then
    Timer.alarm (pause_timer { t1 with sessionTime := 0 })
  else t1

/-- ProjectTimer.inc_session_time: force Paused unless already paused, then
apply the delta (`0` resets, otherwise add and clamp at 0), then run one
display update. -/
def inc_session_time (t : Timer) (delta : Int) : Timer :=
  let t1 := if t.status ≠ TimerStatus.paused then pause_timer t else t
  let t2 :=
    if delta = 0 then { t1 with sessionTime := 0 }
    else
      let t' := { t1 with sessionTime := t1.sessionTime + delta }
      if t'.sessionTime < 0 then { t' with sessionTime := 0 } else t'
  update_display t2

/-- ProjectTimer.save_data: unless the current project is the CountDown
pseudo-project, write `round(session_time/3600, 1)` into the current
project's log under the current wall-clock timestamp (a `dict` assignment)
and persist. `projects_data[self.current_project]` raises `KeyError` when
the current project is absent (or `None`). -/
def save_data (t : Timer) (now : Timestamp) : Except Unit Timer :=
  if t.currentProject ≠ some "CountDown" then
    match t.currentProject with
    | none => Except.error ()
    | some p =>
      match lookupA t.projectsData p with
      | none => Except.error ()
      | some log =>
          let newLog := setA log now (round1 ((t.sessionTime : ℚ) / 3600))
          Except.ok { t with projectsData := setA t.projectsData p newLog }
  else Except.ok t

/-- ProjectTimer.get_project_total_time: returns 0 when
`self.current_project` is falsy; otherwise sums the hour values of
`projects_data[project_name]` (KeyError when absent, also when the argument
is `None`) and rounds to one decimal. -/
def get_project_total_time (t : Timer) (project_name : Option String) :
    Except Unit ℚ :=
  if falsyStr t.currentProject then Except.ok 0
  else
    match project_name with
    | none => Except.error ()
    | some p =>
      match lookupA t.projectsData p with
      | none => Except.error ()
      | some log =>
          Except.ok (round1 (log.foldl (fun acc e => acc + e.2) 0))

/-- ProjectTimer.get_most_recent_project: scan all projects and dates for
the strictly latest date (first occurrence wins ties); when no date exists
at all, fall back to `list(self.projects_data.keys())[1]` — `IndexError`
when the record holds fewer than two projects. -/
def get_most_recent_project (t : Timer) : Except Unit (Option String) :=
  if t.projectsData = [] then Except.ok none
  else
    let best := t.projectsData.foldl
      (fun acc pr => pr.2.foldl
        (fun acc' e =>
          match acc' with
          | none => some (e.1, pr.1)
          | some (d, n) => if e.1 > d then some (e.1, pr.1) else some (d, n))
        acc) none
    match best with
    | some (_, n) => Except.ok (some n)
    | none =>
      match (t.projectsData.map Prod.fst).get? 1 with
      | some n => Except.ok (some n)
      | none => Except.error ()

/-- ProjectTimer.on_project_selected: first, if the session time is positive
and the current project truthy, commit via save_data; then branch on the
selected name — "CountDown" switches to countdown mode with
`session_time = 3600`, an existing project becomes current with its stored
total and `session_time = 0`, and any other name returns with no change. -/
def on_project_selected (t : Timer) (selected : String) (now : Timestamp) :
    Except Unit Timer :=
  let committed :=
    if 0 < t.sessionTime ∧ ¬ falsyStr t.currentProject then save_data t now
    else Except.ok t
  committed.bind (fun t1 =>
    if selected = "CountDown" then
      Except.ok { t1 with currentProject := some "CountDown",
                          currentProjectHours := 0, sessionTime := 3600 }
    else if (lookupA t1.projectsData selected).isSome then
      let t2 := { t1 with currentProject := some selected }
      (get_project_total_time t2 (some selected)).bind (fun hrs =>
        Except.ok { t2 with currentProjectHours := hrs, sessionTime := 0 })
    else
      Except.ok t1)

/-- ProjectTimer.add_new_project: strip the typed name; when non-empty and
not already present, insert an empty log, make it current, save (which
immediately writes the current session into the new project), and zero the
displayed total. Otherwise fall through with no change and no error. -/
def add_new_project (t : Timer) (raw : String) (now : Timestamp) :
    Except Unit Timer :=
  let project_name := pyStrip raw
  if project_name ≠ "" ∧ lookupA t.projectsData project_name = none then
    let t1 := { t with projectsData := setA t.projectsData project_name [],
                       currentProject := some project_name }
    (save_data t1 now).bind (fun t2 =>
      Except.ok { t2 with currentProjectHours := 0 })
  else Except.ok t

/-- ProjectTimer.resume_timer: set Running and run one display update
(which restarts the update loop). -/
def resume_timer (t : Timer) : Timer :=
  update_display { t with status := TimerStatus.running }

/-- ProjectTimer.toggle_timer. -/
def toggle_timer (t : Timer) : Timer :=
  if t.status = TimerStatus.running then pause_timer t else resume_timer t

/-- ProjectTimer.on_closing: pause if running, then save. -/
def on_closing (t : Timer) (now : Timestamp) : Except Unit Timer :=
  let t1 := if t.status = TimerStatus.running then pause_timer t else t
  save_data t1 now

/-- Iterated ticks: n invocations of the update_display tick body. -/
def ticks (n : Nat) (t : Timer) : Timer := update_display^[n] t

/-- The host-facing operations of the timer (the public surface the claims
quantify over). -/
inductive Op where
  | tick
  | adjust (delta : Int)
  | select (name : String) (now : Timestamp)
  | create (raw : String) (now : Timestamp)
  | toggle
  | close (now : Timestamp)

/-- Apply one public operation. -/
def applyOp (t : Timer) : Op → Except Unit Timer
  | Op.tick => Except.ok (update_display t)
  | Op.adjust d => Except.ok (inc_session_time t d)
  | Op.select n now => on_project_selected t n now
  | Op.create r now => add_new_project t r now
  | Op.toggle => Except.ok (toggle_timer t)
  | Op.close now => on_closing t now

/-- Run a sequence of public operations, stopping at the first raise. -/
def runOps (t : Timer) : List Op → Except Unit Timer
  | [] => Except.ok t
  | op :: rest => (applyOp t op).bind (fun t' => runOps t' rest)

/-! ### Association-list lemmas -/

/-- Evaluation rule for round1 from floor bounds. -/
theorem round1_eval {q : ℚ} {z : Int} (h1 : (z : ℚ) ≤ 10 * q + 1/2)
    (h2 : 10 * q + 1/2 < z + 1) : round1 q = (z : ℚ) / 10 := by
  have hf : ⌊10 * q + 1/2⌋ = z := Int.floor_eq_iff.mpr ⟨h1, h2⟩
  rw [round1, hf]

theorem lookupA_setA_self {α β : Type} [DecidableEq α] (l : List (α × β))
    (k : α) (v : β) : lookupA (setA l k v) k = some v := by
  induction l with
  | nil => simp [setA, lookupA]
  | cons hd tl ih =>
    by_cases h : hd.1 = k
    · simp [setA, lookupA, h]
    · simp [setA, lookupA, h, ih]

theorem lookupA_setA_ne {α β : Type} [DecidableEq α] (l : List (α × β))
    (k k' : α) (v : β) (h : k ≠ k') :
    lookupA (setA l k v) k' = lookupA l k' := by
  induction l with
  | nil => simp [setA, lookupA, h]
  | cons hd tl ih =>
    by_cases h1 : hd.1 = k
    · simp [setA, lookupA, h1, h]
    · simp [setA, lookupA, h1, ih]

theorem setA_append_of_lookup_none {α β : Type} [DecidableEq α]
    (l : List (α × β)) (k : α) (v : β) (h : lookupA l k = none) :
    setA l k v = l ++ [(k, v)] := by
  induction l with
  | nil => simp [setA]
  | cons hd tl ih =>
    by_cases h1 : hd.1 = k
    · simp [lookupA, h1] at h
    · simp [lookupA, h1] at h
      simp [setA, h1, ih h]

theorem setA_setA {α β : Type} [DecidableEq α] (l : List (α × β))
    (k : α) (v v' : β) : setA (setA l k v) k v' = setA l k v' := by
  induction l with
  | nil => simp [setA]
  | cons hd tl ih =>
    by_cases h1 : hd.1 = k
    · simp [setA, h1]
    · simp [setA, h1, ih]

/-! ### Tick-body lemmas -/

/-- The signed accrual the tick body applies before the clamp check. -/
def tickTarget (t : Timer) : Int :=
  if t.status = TimerStatus.paused then t.sessionTime
  else if t.currentProject = some "CountDown" then t.sessionTime - 1
  else t.sessionTime + 1

/-- Case characterization of the tick body. -/
theorem update_display_eq (t : Timer) :
    update_display t =
      if tickTarget t < 0 then
        { t with sessionTime := 0, status := TimerStatus.paused,
                 alarms := t.alarms + 1 }
      else { t with sessionTime := tickTarget t } := by
  obtain ⟨st, sess, cp, cph, pd, al⟩ := t
  by_cases hs : st = TimerStatus.paused
  · by_cases h0 : sess < 0 <;>
      simp [update_display, tickTarget, hs, h0, pause_timer, Timer.alarm]
  · by_cases hc : cp = some "CountDown"
    · by_cases h0 : sess - 1 < 0 <;>
        simp [update_display, tickTarget, hs, hc, h0, pause_timer, Timer.alarm]
    · by_cases h0 : sess + 1 < 0 <;>
        simp [update_display, tickTarget, hs, hc, h0, pause_timer, Timer.alarm]

theorem update_display_nonneg (t : Timer) :
    0 ≤ (update_display t).sessionTime := by
  rw [update_display_eq]
  split_ifs with h
  · simp
  · simp
    omega

theorem update_display_paused (t : Timer) (h : t.status = TimerStatus.paused)
    (h0 : 0 ≤ t.sessionTime) : update_display t = t := by
  rw [update_display_eq]
  have ht : tickTarget t = t.sessionTime := by simp [tickTarget, h]
  rw [ht]
  split_ifs with h1
  · omega
  · simp

theorem ticks_succ (n : Nat) (t : Timer) :
    ticks (n + 1) t = update_display (ticks n t) :=
  Function.iterate_succ_apply' update_display n t

theorem ticks_countdown (t : Timer) (h1 : t.currentProject = some "CountDown")
    (h2 : t.status = TimerStatus.running) :
    ∀ n : Nat, (n : Int) ≤ t.sessionTime →
      ticks n t = { t with sessionTime := t.sessionTime - (n : Int) } := by
  intro n
  induction n with
  | zero => intro _; simp [ticks]
  | succ k ih =>
    intro hk
    have hcast : ((k + 1 : Nat) : Int) = (k : Int) + 1 := by push_cast; ring
    have hk' : (k : Int) ≤ t.sessionTime := by omega
    rw [ticks_succ, ih hk', update_display_eq]
    have ht : tickTarget { t with sessionTime := t.sessionTime - (k : Int) }
        = t.sessionTime - (k : Int) - 1 := by
      simp [tickTarget, h1, h2]
    rw [ht]
    have hge : ¬ (t.sessionTime - (k : Int) - 1 < 0) := by omega
    rw [if_neg hge]
    simp
    omega

theorem tick_crossing (t : Timer) (h1 : t.currentProject = some "CountDown")
    (h2 : t.status = TimerStatus.running) (h3 : t.sessionTime = 0) :
    update_display t = { t with sessionTime := 0, status := TimerStatus.paused,
                                alarms := t.alarms + 1 } := by
  rw [update_display_eq]
  have ht : tickTarget t = -1 := by simp [tickTarget, h1, h2, h3]
  rw [ht]
  norm_num

theorem ticks_stationary (t : Timer) (h : t.status = TimerStatus.paused)
    (h0 : 0 ≤ t.sessionTime) : ∀ m : Nat, ticks m t = t := by
  intro m
  induction m with
  | zero => rfl
  | succ k ih => rw [ticks_succ, ih, update_display_paused t h h0]

/-! ### save_data facts -/

theorem save_data_fields {t t' : Timer} {now : Timestamp}
    (h : save_data t now = Except.ok t') :
    t'.status = t.status ∧ t'.sessionTime = t.sessionTime ∧
    t'.currentProject = t.currentProject ∧ t'.alarms = t.alarms := by
  unfold save_data at h
  split at h
  · split at h
    · cases h
    · split at h
      · cases h
      · cases h
        simp
  · cases h
    simp

/-! ### inc_session_time characterization -/

theorem inc_session_time_eq (t : Timer) (delta : Int) :
    inc_session_time t delta =
      { t with status := TimerStatus.paused,
               sessionTime := if delta = 0 then 0
                              else if t.sessionTime + delta < 0 then 0
                              else t.sessionTime + delta } := by
  obtain ⟨st, sess, cp, cph, pd, al⟩ := t
  by_cases hst : st = TimerStatus.paused <;>
  by_cases hd : delta = 0 <;>
  by_cases hneg : sess + delta < 0 <;>
    simp [inc_session_time, pause_timer, hst, hd, hneg, update_display_eq,
      tickTarget]

/-! ### Claim theorems -/

/-- C9: for every non-negative integer s, the clock decomposition satisfies
hours = s div 3600, minutes = (s mod 3600) div 60, seconds = s mod 60,
hence hours*3600 + minutes*60 + seconds = s; 0 maps to (0,0,0); and the
hours field is the full quotient s div 3600, growing unboundedly instead of
wrapping at 24 hours. -/
theorem C9_toClock_decomposition (s : Int) (hs : 0 ≤ s) :
    (convert_seconds_to_hms s).1 = s / 3600
  ∧ (convert_seconds_to_hms s).2.1 = (s % 3600) / 60
  ∧ (convert_seconds_to_hms s).2.2 = s % 60
  ∧ (convert_seconds_to_hms s).1 * 3600 + (convert_seconds_to_hms s).2.1 * 60
      + (convert_seconds_to_hms s).2.2 = s
  ∧ convert_seconds_to_hms 0 = (0, 0, 0) := by
  have h36 : (0 : Int) ≤ 3600 := by norm_num
  have h60 : (0 : Int) ≤ 60 := by norm_num
  have hd1 : (convert_seconds_to_hms s).1 = Int.fdiv s 3600 := rfl
  have hd2 : (convert_seconds_to_hms s).2.1 = Int.fdiv (Int.fmod s 3600) 60 := rfl
  have hd3 : (convert_seconds_to_hms s).2.2 = Int.fmod (Int.fmod s 3600) 60 := rfl
  rw [hd1, hd2, hd3, Int.fmod_eq_emod s h36, Int.fdiv_eq_ediv s h36,
    Int.fmod_eq_emod (s % 3600) h60, Int.fdiv_eq_ediv (s % 3600) h60]
  refine ⟨rfl, rfl, by omega, by omega, rfl⟩

/-- Witness for C9 at s = 3661 (the spec's own example, toClock(3661) = (1,1,1)). -/
theorem C9_toClock_decomposition_witness :
    (0 : Int) ≤ 3661
  ∧ (convert_seconds_to_hms 3661).1 * 3600
      + (convert_seconds_to_hms 3661).2.1 * 60
      + (convert_seconds_to_hms 3661).2.2 = 3661
  ∧ convert_seconds_to_hms 3661 = (1, 1, 1) :=
  ⟨by norm_num, (C9_toClock_decomposition 3661 (by norm_num)).2.2.2.1, by decide⟩

/-- C4: adjust(delta) always ends Paused; delta = 0 resets the session time
to zero; otherwise the delta is added and the result clamped at 0; in
particular adjust(-60) at 30 seconds yields 0, Paused. -/
theorem C4_adjust_pauses_and_clamps (t : Timer) (delta : Int) :
    (inc_session_time t delta).status = TimerStatus.paused
  ∧ (delta = 0 → (inc_session_time t delta).sessionTime = 0)
  ∧ (delta ≠ 0 →
       (inc_session_time t delta).sessionTime = max 0 (t.sessionTime + delta))
  ∧ (t.sessionTime = 30 →
       (inc_session_time t (-60)).sessionTime = 0
       ∧ (inc_session_time t (-60)).status = TimerStatus.paused) := by
  refine ⟨?_, ?_, ?_, ?_⟩
  · rw [inc_session_time_eq]
  · intro hd
    rw [inc_session_time_eq]
    simp [hd]
  · intro hd
    rw [inc_session_time_eq]
    simp [hd]
    omega
  · intro h30
    rw [inc_session_time_eq]
    constructor
    · simp
      omega
    · rfl

/-- Witness for C4 at the spec's example state: session 30, adjust(-60). -/
theorem C4_adjust_pauses_and_clamps_witness :
    (inc_session_time ⟨TimerStatus.running, 30, some "A", 0, [("A", [])], 0⟩
        (-60)).sessionTime = 0
  ∧ (inc_session_time ⟨TimerStatus.running, 30, some "A", 0, [("A", [])], 0⟩
        (-60)).status = TimerStatus.paused :=
  (C4_adjust_pauses_and_clamps
    ⟨TimerStatus.running, 30, some "A", 0, [("A", [])], 0⟩ (-60)).2.2.2 rfl

/-- C3 counterexample: in the Stopped state a tick is not a no-op — from a
stopped session on a normal project with 5 elapsed seconds, one tick moves
the session time to 6, refuting the claim that Stopped leaves elapsedSeconds
unchanged. -/
theorem C3_tick_stopped_counterexample :
    (update_display
        ⟨TimerStatus.stopped, 5, some "A", 0, [("A", [])], 0⟩).sessionTime ≠ 5 := by
  decide

/-- C3 amended: a tick is a no-op only in the Paused state (given the
session time is non-negative); whenever the status is not Paused — that is,
in Running and equally in Stopped — the tick accrues: +1 for a normal
project, -1 for the countdown pseudo-project. -/
theorem C3_tick_noop_only_paused (t : Timer) (h0 : 0 ≤ t.sessionTime) :
    (t.status = TimerStatus.paused → update_display t = t)
  ∧ (t.status ≠ TimerStatus.paused → t.currentProject ≠ some "CountDown" →
       (update_display t).sessionTime = t.sessionTime + 1)
  ∧ (t.status ≠ TimerStatus.paused → t.currentProject = some "CountDown" →
       0 < t.sessionTime → (update_display t).sessionTime = t.sessionTime - 1) := by
  refine ⟨fun h => update_display_paused t h h0, ?_, ?_⟩
  · intro hs hc
    rw [update_display_eq]
    have ht : tickTarget t = t.sessionTime + 1 := by simp [tickTarget, hs, hc]
    rw [ht]
    have : ¬ (t.sessionTime + 1 < 0) := by omega
    rw [if_neg this]
  · intro hs hc hpos
    rw [update_display_eq]
    have ht : tickTarget t = t.sessionTime - 1 := by simp [tickTarget, hs, hc]
    rw [ht]
    have : ¬ (t.sessionTime - 1 < 0) := by omega
    rw [if_neg this]

/-- Witness for C3 amended: a running tick on a normal project adds one
second, a paused tick changes nothing. -/
theorem C3_tick_noop_only_paused_witness :
    (update_display ⟨TimerStatus.paused, 7, some "A", 0, [("A", [])], 0⟩)
      = ⟨TimerStatus.paused, 7, some "A", 0, [("A", [])], 0⟩
  ∧ (update_display
        ⟨TimerStatus.running, 7, some "A", 0, [("A", [])], 0⟩).sessionTime = 7 + 1 :=
  ⟨(C3_tick_noop_only_paused
      ⟨TimerStatus.paused, 7, some "A", 0, [("A", [])], 0⟩ (by norm_num)).1 rfl,
   (C3_tick_noop_only_paused
      ⟨TimerStatus.running, 7, some "A", 0, [("A", [])], 0⟩ (by norm_num)).2.1
      (by decide) (by decide)⟩

/-- C2 counterexample: from the countdown start state (Running, CountDown,
3600 seconds), 3600 ticks drive the session time to exactly 0 but raise no
alarm event at all — the alarm fires only on the 3601st tick — refuting the
claim that 3600 ticks raise exactly one alarm. -/
theorem C2_3600_ticks_raise_no_alarm :
    (ticks 3600
        ⟨TimerStatus.running, 3600, some "CountDown", 0, [], 0⟩).sessionTime = 0
  ∧ (ticks 3600
        ⟨TimerStatus.running, 3600, some "CountDown", 0, [], 0⟩).alarms = 0 := by
  have h := ticks_countdown
    ⟨TimerStatus.running, 3600, some "CountDown", 0, [], 0⟩ rfl rfl 3600
    (by norm_num)
  rw [h]
  exact ⟨by norm_num, rfl⟩

/-- C2 amended: selecting the countdown pseudo-project always sets the
session time to 3600; from a running countdown at 3600 seconds, n ≤ 3600
ticks leave 3600 - n seconds with status still Running and no alarm raised
yet; the 3601st tick clamps to 0, transitions to Paused, and raises the
alarm exactly once; all further ticks leave the state fixed (no repeated
alarm while remaining at 0); and the session time is never observed
negative. -/
theorem C2_countdown_alarm_on_successor_tick (t : Timer)
    (h1 : t.currentProject = some "CountDown")
    (h2 : t.status = TimerStatus.running) (h3 : t.sessionTime = 3600) :
    (∀ (s s' : Timer) (now : Timestamp),
        on_project_selected s "CountDown" now = Except.ok s' →
        s'.sessionTime = 3600 ∧ s'.currentProject = some "CountDown")
  ∧ (∀ n : Nat, n ≤ 3600 →
        (ticks n t).sessionTime = 3600 - (n : Int)
        ∧ (ticks n t).status = TimerStatus.running
        ∧ (ticks n t).alarms = t.alarms)
  ∧ (ticks 3601 t).sessionTime = 0
  ∧ (ticks 3601 t).status = TimerStatus.paused
  ∧ (ticks 3601 t).alarms = t.alarms + 1
  ∧ (∀ m : Nat, ticks (3601 + m) t = ticks 3601 t)
  ∧ (∀ n : Nat, 0 ≤ (ticks n t).sessionTime) := by
  have hrun : ∀ n : Nat, n ≤ 3600 →
      ticks n t = { t with sessionTime := 3600 - (n : Int) } := by
    intro n hn
    have := ticks_countdown t h1 h2 n (by omega)
    rw [this, h3]
  have h3601 : ticks 3601 t =
      { t with sessionTime := 0, status := TimerStatus.paused,
               alarms := t.alarms + 1 } := by
    have hstep : (3601 : Nat) = 3600 + 1 := rfl
    rw [hstep, ticks_succ, hrun 3600 (le_refl 3600)]
    rw [tick_crossing { t with sessionTime := 3600 - ((3600 : Nat) : Int) }
      h1 h2 (by norm_num)]
  refine ⟨?_, ?_, ?_, ?_, ?_, ?_, ?_⟩
  · intro s s' now h
    unfold on_project_selected at h
    cases hc : (if 0 < s.sessionTime ∧ ¬ falsyStr s.currentProject
        then save_data s now else Except.ok s) with
    | error e => rw [hc] at h; cases h
    | ok t1 =>
      rw [hc] at h
      simp only [Except.bind, if_pos rfl] at h
      cases h
      exact ⟨rfl, rfl⟩
  · intro n hn
    rw [hrun n hn]
    exact ⟨rfl, h2, rfl⟩
  · rw [h3601]
  · rw [h3601]
  · rw [h3601]
  · intro m
    rw [Nat.add_comm]
    show update_display^[m + 3601] t = ticks 3601 t
    rw [Function.iterate_add_apply]
    show ticks m (ticks 3601 t) = ticks 3601 t
    apply ticks_stationary
    · rw [h3601]
    · rw [h3601]
  · intro n
    cases n with
    | zero => simp [ticks, h3]
    | succ k => rw [ticks_succ]; exact update_display_nonneg _

theorem save_data_ok_eq (t : Timer) (now : Timestamp) (p : String)
    (log : TimeLog) (hp : t.currentProject = some p) (hne : p ≠ "CountDown")
    (hlog : lookupA t.projectsData p = some log) :
    save_data t now = Except.ok { t with projectsData := setA t.projectsData p (setA log now (round1 ((t.sessionTime : ℚ) / 3600))) } := by
  simp [save_data, hp, hne, hlog]

theorem save_data_skip (t : Timer) (now : Timestamp)
    (hp : t.currentProject = some "CountDown") :
    save_data t now = Except.ok t := by
  simp [save_data, hp]

/-- C1 counterexample: closing the application with elapsedSeconds = 0 on a
normal project still appends a TimeEntry (with 0 hours) to the persisted
record, refuting the claim that an entry is appended only when
elapsedSeconds is strictly greater than 0. -/
theorem C1_close_commits_at_zero_elapsed :
    on_closing ⟨TimerStatus.paused, 0, some "A", 0, [("A", [])], 0⟩ 100
      = Except.ok ⟨TimerStatus.paused, 0, some "A", 0, [("A", [(100, 0)])], 0⟩ := by
  have h0 : round1 0 = 0 := by
    rw [round1_eval (z := 0) (by norm_num) (by norm_num)]
    norm_num
  simp [on_closing, save_data, setA, lookupA, h0]

/-- Once the commit step returns the state unchanged, the selection branch
of on_project_selected never alters the persisted record. -/
theorem select_after_ok_keeps_record (t : Timer) (sel : String)
    (now : Timestamp)
    (hc : (if 0 < t.sessionTime ∧ ¬ falsyStr t.currentProject
           then save_data t now else Except.ok t) = Except.ok t) :
    (on_project_selected t sel now).map Timer.projectsData
      = Except.ok t.projectsData := by
  simp only [on_project_selected]
  rw [hc]
  simp only [Except.bind]
  by_cases hsel : sel = "CountDown"
  · rw [if_pos hsel]
    rfl
  · rw [if_neg hsel]
    by_cases hmem : (lookupA t.projectsData sel).isSome = true
    · rw [if_pos hmem]
      by_cases hsel0 : sel = ""
      · subst hsel0
        simp [get_project_total_time, falsyStr, Except.bind, Except.map]
      · obtain ⟨log2, hlog2⟩ := Option.isSome_iff_exists.mp hmem
        simp [get_project_total_time, falsyStr, hsel0, hlog2, Except.bind,
          Except.map]
    · rw [if_neg hmem]
      rfl

/-- C1 amended: an entry with the current timestamp and
round(elapsedSeconds/3600, 1) hours is written once per commit event, but
the guard differs by event: a commit never touches the record while the
active project is the countdown pseudo-project (neither on close nor on
switch-away); on application close the entry is appended whenever the
active project is a stored project — even with elapsedSeconds = 0; on
switch-away the entry is appended exactly when elapsedSeconds > 0 and the
active project is truthy (for any selected name): when that guard fails the
record is returned untouched. -/
theorem C1_commit_append_conditions (t : Timer) (p : String) (now : Timestamp)
    (log : TimeLog) (hp : t.currentProject = some p)
    (hlog : p ≠ "CountDown" → lookupA t.projectsData p = some log)
    (hfresh : lookupA log now = none) :
    (p = "CountDown" →
       (on_closing t now).map Timer.projectsData = Except.ok t.projectsData)
  ∧ (p ≠ "CountDown" →
       (on_closing t now).map (fun s => lookupA s.projectsData p)
         = Except.ok (some (log ++ [(now, round1 ((t.sessionTime : ℚ) / 3600))])))
  ∧ (p ≠ "CountDown" → p ≠ "" → 0 < t.sessionTime → ∀ sel : String,
       (on_project_selected t sel now).map (fun s => lookupA s.projectsData p)
         = Except.ok (some (log ++ [(now, round1 ((t.sessionTime : ℚ) / 3600))])))
  ∧ (¬ (0 < t.sessionTime ∧ ¬ falsyStr t.currentProject) → ∀ sel : String,
       (on_project_selected t sel now).map Timer.projectsData
         = Except.ok t.projectsData)
  ∧ (p = "CountDown" → ∀ sel : String,
       (on_project_selected t sel now).map Timer.projectsData
         = Except.ok t.projectsData) := by
  refine ⟨?_, ?_, ?_, ?_, ?_⟩
  · intro hcd
    subst hcd
    unfold on_closing
    by_cases hr : t.status = TimerStatus.running <;>
      simp [hr, save_data, pause_timer, hp, Except.map]
  · intro hne
    unfold on_closing
    by_cases hr : t.status = TimerStatus.running
    · rw [if_pos hr,
        save_data_ok_eq (pause_timer t) now p log hp hne (hlog hne)]
      simp only [Except.map, lookupA_setA_self]
      rw [setA_append_of_lookup_none log now _ hfresh]
      rfl
    · rw [if_neg hr, save_data_ok_eq t now p log hp hne (hlog hne)]
      simp only [Except.map, lookupA_setA_self]
      rw [setA_append_of_lookup_none log now _ hfresh]
  · intro hne hne' hpos sel
    unfold on_project_selected
    have hcommit : (if 0 < t.sessionTime ∧ ¬ falsyStr t.currentProject
        then save_data t now else Except.ok t) = save_data t now := by
      rw [if_pos ⟨hpos, by simp [falsyStr, hp, hne']⟩]
    rw [hcommit, save_data_ok_eq t now p log hp hne (hlog hne)]
    rw [setA_append_of_lookup_none log now _ hfresh]
    simp only [Except.bind]
    by_cases hsel : sel = "CountDown"
    · simp [hsel, Except.map, lookupA_setA_self]
    · rw [if_neg hsel]
      by_cases hmem : (lookupA (setA t.projectsData p
          (log ++ [(now, round1 ((t.sessionTime : ℚ) / 3600))])) sel).isSome
      · obtain ⟨log2, hlog2⟩ := Option.isSome_iff_exists.mp hmem
        by_cases hsel0 : sel = ""
        · subst hsel0
          simp [hlog2, get_project_total_time, falsyStr, Except.bind,
            Except.map, lookupA_setA_self]
        · simp [hlog2, get_project_total_time, falsyStr, hsel0,
            Except.bind, Except.map, lookupA_setA_self]
      · simp [hmem, Except.map, lookupA_setA_self]
  · intro hno sel
    apply select_after_ok_keeps_record
    rw [if_neg hno]
  · intro hcd sel
    subst hcd
    apply select_after_ok_keeps_record
    by_cases hcc : 0 < t.sessionTime ∧ ¬ falsyStr t.currentProject = true
    · rw [if_pos hcc]
      exact save_data_skip t now hp
    · rw [if_neg hcc]

/-- Witness for C1 amended: closing with a 1800-second session on project
"A" appends the entry (9, round1(1800/3600)) to its log, while switching
away with a 0-second session leaves the record untouched. -/
theorem C1_commit_append_conditions_witness :
    (on_closing ⟨TimerStatus.paused, 1800, some "A", 0, [("A", [(5, 1)])], 0⟩
        9).map (fun s => lookupA s.projectsData "A")
      = Except.ok (some ([(5, 1)]
          ++ [(9, round1 (((1800 : Int) : ℚ) / 3600))]))
  ∧ (on_project_selected ⟨TimerStatus.paused, 0, some "A", 0,
        [("A", [(5, 1)])], 0⟩ "B" 9).map Timer.projectsData
      = Except.ok [("A", [(5, 1)])] :=
  ⟨(C1_commit_append_conditions
      ⟨TimerStatus.paused, 1800, some "A", 0, [("A", [(5, 1)])], 0⟩ "A" 9
      [(5, 1)] rfl (fun _ => rfl) rfl).2.1 (by decide),
   (C1_commit_append_conditions
      ⟨TimerStatus.paused, 0, some "A", 0, [("A", [(5, 1)])], 0⟩ "A" 9
      [(5, 1)] rfl (fun _ => rfl) rfl).2.2.2.1 (by decide) "B"⟩

/-- Witness for C2 amended at the countdown start state: the 3601st tick
pauses and raises the single alarm. -/
theorem C2_countdown_alarm_on_successor_tick_witness :
    (ticks 3601
        ⟨TimerStatus.running, 3600, some "CountDown", 0, [], 0⟩).sessionTime = 0
  ∧ (ticks 3601
        ⟨TimerStatus.running, 3600, some "CountDown", 0, [], 0⟩).status
      = TimerStatus.paused
  ∧ (ticks 3601
        ⟨TimerStatus.running, 3600, some "CountDown", 0, [], 0⟩).alarms
      = 0 + 1 := by
  have h := C2_countdown_alarm_on_successor_tick
    ⟨TimerStatus.running, 3600, some "CountDown", 0, [], 0⟩ rfl rfl rfl
  exact ⟨h.2.2.1, h.2.2.2.1, h.2.2.2.2.1⟩

/-- C5: the fallback of get_most_recent_project contradicts its own comment
("Fallback to first project if no dates found"): on a record whose projects
all have empty logs it evaluates `list(keys)[1]` — the second project — so a
single-project record raises IndexError and a two-project record yields the
second project rather than the first. -/
theorem C5_fallback_take_second_or_crash :
    get_most_recent_project ⟨TimerStatus.stopped, 0, none, 0, [("A", [])], 0⟩
      = Except.error ()
  ∧ get_most_recent_project
      ⟨TimerStatus.stopped, 0, none, 0, [("A", []), ("B", [])], 0⟩
      = Except.ok (some "B")
  ∧ get_most_recent_project
      ⟨TimerStatus.stopped, 0, none, 0,
        [("A", [(3, 1)]), ("B", [(7, 2)]), ("C", [(5, 1)])], 0⟩
      = Except.ok (some "B") := by
  refine ⟨rfl, rfl, rfl⟩

/-- C6 counterexample: creating the fresh project "A" while the session
holds 1800 seconds persists a one-entry log (50, 0.5) for "A" — not an
empty TimeLog — and leaves elapsedSeconds at 1800 rather than selecting the
new project with zero elapsed time. -/
theorem C6_create_commits_session_into_new_project :
    add_new_project ⟨TimerStatus.paused, 1800, some "B", 0, [("B", [])], 0⟩
        "A" 50
      = Except.ok ⟨TimerStatus.paused, 1800, some "A", 0,
          [("B", []), ("A", [(50, 1/2)])], 0⟩ := by
  have h0 : round1 ((1800 : ℚ) / 3600) = 1/2 := by
    rw [round1_eval (z := 5) (by norm_num) (by norm_num)]
    norm_num
  have htrim : pyStrip "A" = "A" := by decide
  simp [add_new_project, save_data, setA, lookupA, htrim, h0, Except.bind]

/-- C6 amended: creating a project with a blank (post-trim) or
already-present name silently falls through — no InvalidName error value
exists, though the record is indeed left unchanged; creating a fresh
non-blank name (other than the reserved countdown name) appends the project
and immediately commits the current session into it, so its persisted log
holds the single entry (now, round(elapsedSeconds/3600, 1)) instead of
being empty, the new project becomes active with displayed total zero, and
elapsedSeconds keeps its prior value instead of being reset. -/
theorem C6_create_rejects_silently_and_seeds_log (t : Timer) (raw : String)
    (now : Timestamp) :
    (pyStrip raw = "" ∨ (lookupA t.projectsData (pyStrip raw)).isSome →
        add_new_project t raw now = Except.ok t)
  ∧ (pyStrip raw ≠ "" → pyStrip raw ≠ "CountDown" →
      lookupA t.projectsData (pyStrip raw) = none →
        add_new_project t raw now = Except.ok
          { t with projectsData := t.projectsData ++ [(pyStrip raw, [(now, round1 ((t.sessionTime : ℚ) / 3600))])],
                   currentProject := some (pyStrip raw),
                   currentProjectHours := 0 }) := by
  constructor
  · intro h
    rcases h with h | h
    · simp [add_new_project, h]
    · have hne : lookupA t.projectsData (pyStrip raw) ≠ none := by
        intro hcon
        rw [hcon] at h
        cases h
      simp [add_new_project, hne]
  · intro h1 hcd h2
    unfold add_new_project
    rw [if_pos ⟨h1, h2⟩]
    show (save_data { t with
        projectsData := setA t.projectsData (pyStrip raw) [],
        currentProject := some (pyStrip raw) } now).bind _ = _
    rw [save_data_ok_eq
      { t with projectsData := setA t.projectsData (pyStrip raw) [],
               currentProject := some (pyStrip raw) }
      now (pyStrip raw) [] rfl hcd (lookupA_setA_self _ _ _)]
    simp only [Except.bind]
    rw [setA_setA, setA_append_of_lookup_none _ _ _ h2]
    rfl

/-- Witness for C6 amended: creating a blank name is a silent no-op. -/
theorem C6_create_rejects_silently_and_seeds_log_witness :
    add_new_project ⟨TimerStatus.paused, 0, some "B", 0, [("B", [])], 0⟩ " " 7
      = Except.ok ⟨TimerStatus.paused, 0, some "B", 0, [("B", [])], 0⟩ :=
  (C6_create_rejects_silently_and_seeds_log
    ⟨TimerStatus.paused, 0, some "B", 0, [("B", [])], 0⟩ " " 7).1
    (Or.inl (by decide))

theorem save_data_error_none (t : Timer) (now : Timestamp)
    (h : t.currentProject = none) : save_data t now = Except.error () := by
  simp [save_data, h]

theorem save_data_error_absent (t : Timer) (now : Timestamp) (p : String)
    (hp : t.currentProject = some p) (hne : p ≠ "CountDown")
    (h : lookupA t.projectsData p = none) :
    save_data t now = Except.error () := by
  simp [save_data, hp, hne, h]

theorem save_data_preserves_absent (t : Timer) (now : Timestamp) (sel : String)
    (habs : lookupA t.projectsData sel = none) :
    ∀ t1, save_data t now = Except.ok t1 →
      lookupA t1.projectsData sel = none := by
  intro t1 h
  by_cases hcd : t.currentProject = some "CountDown"
  · rw [save_data_skip t now hcd] at h
    cases h
    exact habs
  · cases hcp : t.currentProject with
    | none => rw [save_data_error_none t now hcp] at h; cases h
    | some p =>
      have hne : p ≠ "CountDown" := by
        intro hh
        rw [hh] at hcp
        exact hcd hcp
      cases hlook : lookupA t.projectsData p with
      | none => rw [save_data_error_absent t now p hcp hne hlook] at h; cases h
      | some log =>
        rw [save_data_ok_eq t now p log hcp hne hlook] at h
        cases h
        have hps : p ≠ sel := by
          intro hh
          rw [hh] at hlook
          rw [hlook] at habs
          cases habs
        simp [lookupA_setA_ne _ _ _ _ hps, habs]

/-- C7 counterexample: selecting the absent project "B" while 10 seconds of
session time stand on project "A" commits an entry (9, 0) into "A" and
persists the record before the absence check — refuting "no entry is
committed, nothing is persisted" — although the session itself does stay on
"A" with its elapsed seconds intact. -/
theorem C7_select_absent_still_commits :
    on_project_selected ⟨TimerStatus.running, 10, some "A", 2,
        [("A", [(1, 1)])], 0⟩ "B" 9
      = Except.ok ⟨TimerStatus.running, 10, some "A", 2,
          [("A", [(1, 1), (9, 0)])], 0⟩ := by
  have h0 : round1 ((10 : ℚ) / 3600) = 0 := by
    rw [round1_eval (z := 0) (by norm_num) (by norm_num)]
    norm_num
  simp [on_project_selected, save_data, falsyStr, setA, lookupA, Except.bind,
    h0]

/-- C7 amended: selecting a name absent from the record (and different from
the countdown pseudo-project) produces no NotFound report — the selection
is silently ignored and the session stays on the previous project with
status, elapsed seconds, and alarm count unchanged; however, when the
session time is positive and the current project truthy, the pending
session is first committed and persisted (save_data runs before the
absence check). -/
theorem C7_select_absent_ignored_after_commit (t : Timer) (sel : String)
    (now : Timestamp) (habs : lookupA t.projectsData sel = none)
    (hsel : sel ≠ "CountDown") :
    on_project_selected t sel now
      = (if 0 < t.sessionTime ∧ ¬ falsyStr t.currentProject
         then save_data t now else Except.ok t)
  ∧ (∀ t2 : Timer, on_project_selected t sel now = Except.ok t2 →
       t2.currentProject = t.currentProject ∧ t2.sessionTime = t.sessionTime
       ∧ t2.status = t.status ∧ t2.alarms = t.alarms) := by
  have part1 : on_project_selected t sel now
      = (if 0 < t.sessionTime ∧ ¬ falsyStr t.currentProject
         then save_data t now else Except.ok t) := by
    simp only [on_project_selected]
    by_cases hc : 0 < t.sessionTime ∧ ¬ falsyStr t.currentProject = true
    · rw [if_pos hc]
      cases hs : save_data t now with
      | error e => simp [Except.bind]
      | ok t1 =>
        have habs1 := save_data_preserves_absent t now sel habs t1 hs
        simp [Except.bind, hsel, habs1]
    · rw [if_neg hc]
      simp [Except.bind, hsel, habs]
  refine ⟨part1, ?_⟩
  intro t2 h
  rw [part1] at h
  by_cases hc : 0 < t.sessionTime ∧ ¬ falsyStr t.currentProject = true
  · rw [if_pos hc] at h
    obtain ⟨ha, hb, hcur, hd⟩ := save_data_fields h
    exact ⟨hcur, hb, ha, hd⟩
  · rw [if_neg hc] at h
    cases h
    exact ⟨rfl, rfl, rfl, rfl⟩

/-- Witness for C7 amended at the counterexample state: the selection of the
absent "B" reduces to the commit alone. -/
theorem C7_select_absent_ignored_after_commit_witness :
    on_project_selected ⟨TimerStatus.running, 10, some "A", 2,
        [("A", [(1, 1)])], 0⟩ "B" 9
      = (if 0 < (⟨TimerStatus.running, 10, some "A", 2,
            [("A", [(1, 1)])], 0⟩ : Timer).sessionTime
            ∧ ¬ falsyStr (⟨TimerStatus.running, 10, some "A", 2,
                [("A", [(1, 1)])], 0⟩ : Timer).currentProject
         then save_data ⟨TimerStatus.running, 10, some "A", 2,
            [("A", [(1, 1)])], 0⟩ 9
         else Except.ok ⟨TimerStatus.running, 10, some "A", 2,
            [("A", [(1, 1)])], 0⟩) :=
  (C7_select_absent_ignored_after_commit
    ⟨TimerStatus.running, 10, some "A", 2, [("A", [(1, 1)])], 0⟩ "B" 9
    rfl (by decide)).1

theorem foldl_add_eq_sum (log : TimeLog) :
    ∀ a : ℚ, log.foldl (fun acc e => acc + e.2) a = a + (log.map Prod.snd).sum := by
  induction log with
  | nil => intro a; simp
  | cons hd tl ih =>
    intro a
    simp [List.foldl_cons, ih, add_assoc]

/-- C8 counterexample: with the same record [("A", [(1, 2)])] and the same
argument "A", totalHours returns 0 when the session's current project is
None but 2 when it is "A" — the result does not depend only on the argument
and the record, and the 0 answer is not the sum of A's hours. -/
theorem C8_total_depends_on_session :
    get_project_total_time ⟨TimerStatus.stopped, 0, none, 0,
        [("A", [(1, 2)])], 0⟩ (some "A") = Except.ok 0
  ∧ get_project_total_time ⟨TimerStatus.stopped, 0, some "A", 0,
        [("A", [(1, 2)])], 0⟩ (some "A") = Except.ok 2 := by
  have h2 : round1 2 = 2 := by
    rw [round1_eval (z := 20) (by norm_num) (by norm_num)]
    norm_num
  constructor
  · rfl
  · simp [get_project_total_time, falsyStr, lookupA, h2]

/-- C8 amended: when the session's current project is truthy,
totalHours(projectName) is the sum of the hours of projectName's entries
rounded to one decimal (0 for an empty log, KeyError when absent); but when
the current project is falsy (None or empty) the function returns 0 for
every argument, so the result depends on the session state as well as the
argument and the record. -/
theorem C8_total_sum_when_current_truthy (t : Timer) (p : String)
    (log : TimeLog) (hcur : falsyStr t.currentProject = false)
    (hlog : lookupA t.projectsData p = some log) :
    get_project_total_time t (some p)
      = Except.ok (round1 ((log.map Prod.snd).sum))
  ∧ (log = [] → get_project_total_time t (some p) = Except.ok 0)
  ∧ (∀ s : Timer, falsyStr s.currentProject = true →
       ∀ q : Option String, get_project_total_time s q = Except.ok 0) := by
  have hmain : get_project_total_time t (some p)
      = Except.ok (round1 ((log.map Prod.snd).sum)) := by
    simp [get_project_total_time, hcur, hlog, foldl_add_eq_sum]
  refine ⟨hmain, ?_, ?_⟩
  · intro hnil
    rw [hmain, hnil]
    have h0 : round1 0 = 0 := by
      rw [round1_eval (z := 0) (by norm_num) (by norm_num)]
      norm_num
    simp [h0]
  · intro s hf q
    simp [get_project_total_time, hf]

/-- Witness for C8 amended: project "A" with entries of 1 and 2 hours totals
round1(3) hours while the current project is truthy. -/
theorem C8_total_sum_when_current_truthy_witness :
    get_project_total_time ⟨TimerStatus.stopped, 0, some "A", 0,
        [("A", [(1, 1), (4, 2)])], 0⟩ (some "A")
      = Except.ok (round1 (([((1 : Timestamp), (1 : ℚ)),
          ((4 : Timestamp), (2 : ℚ))].map Prod.snd).sum)) :=
  (C8_total_sum_when_current_truthy
    ⟨TimerStatus.stopped, 0, some "A", 0, [("A", [(1, 1), (4, 2)])], 0⟩
    "A" [(1, 1), (4, 2)] rfl rfl).1

theorem on_project_selected_session (t : Timer) (sel : String)
    (now : Timestamp) :
    ∀ t2, on_project_selected t sel now = Except.ok t2 →
      t2.sessionTime = 3600 ∨ t2.sessionTime = 0
      ∨ t2.sessionTime = t.sessionTime := by
  intro t2 h
  simp only [on_project_selected] at h
  cases hc : (if 0 < t.sessionTime ∧ ¬ falsyStr t.currentProject = true
      then save_data t now else Except.ok t) with
  | error e => rw [hc] at h; cases h
  | ok t1 =>
    rw [hc] at h
    have ht1 : t1.sessionTime = t.sessionTime := by
      by_cases hcc : 0 < t.sessionTime ∧ ¬ falsyStr t.currentProject = true
      · rw [if_pos hcc] at hc
        exact (save_data_fields hc).2.1
      · rw [if_neg hcc] at hc
        cases hc
        rfl
    simp only [Except.bind] at h
    by_cases hsel : sel = "CountDown"
    · rw [if_pos hsel] at h
      cases h
      left
      rfl
    · rw [if_neg hsel] at h
      by_cases hmem : (lookupA t1.projectsData sel).isSome = true
      · rw [if_pos hmem] at h
        cases hg : get_project_total_time
            { t1 with currentProject := some sel } (some sel) with
        | error e => rw [hg] at h; cases h
        | ok hrs =>
          rw [hg] at h
          simp only [Except.bind] at h
          cases h
          right
          left
          rfl
      · rw [if_neg hmem] at h
        cases h
        right
        right
        exact ht1

theorem add_new_project_session (t : Timer) (raw : String) (now : Timestamp) :
    ∀ t2, add_new_project t raw now = Except.ok t2 →
      t2.sessionTime = t.sessionTime := by
  intro t2 h
  simp only [add_new_project] at h
  by_cases hc : pyStrip raw ≠ "" ∧ lookupA t.projectsData (pyStrip raw) = none
  · rw [if_pos hc] at h
    cases hs : save_data { t with
        projectsData := setA t.projectsData (pyStrip raw) [],
        currentProject := some (pyStrip raw) } now with
    | error e => rw [hs] at h; cases h
    | ok t3 =>
      rw [hs] at h
      simp only [Except.bind] at h
      cases h
      exact (save_data_fields hs).2.1
  · rw [if_neg hc] at h
    cases h
    rfl

theorem applyOp_nonneg (t : Timer) (op : Op) (h : 0 ≤ t.sessionTime) :
    ∀ t2, applyOp t op = Except.ok t2 → 0 ≤ t2.sessionTime := by
  intro t2 hap
  cases op with
  | tick =>
    cases hap
    exact update_display_nonneg t
  | adjust d =>
    cases hap
    rw [inc_session_time_eq]
    dsimp only
    split_ifs <;> omega
  | select n now =>
    rcases on_project_selected_session t n now t2 hap with h1 | h1 | h1 <;>
      omega
  | create r now =>
    have := add_new_project_session t r now t2 hap
    omega
  | toggle =>
    cases hap
    unfold toggle_timer
    split
    · exact h
    · unfold resume_timer
      exact update_display_nonneg _
  | close now =>
    simp only [applyOp, on_closing] at hap
    by_cases hr : t.status = TimerStatus.running
    · rw [if_pos hr] at hap
      have hf := (save_data_fields hap).2.1
      rw [hf]
      exact h
    · rw [if_neg hr] at hap
      have hf := (save_data_fields hap).2.1
      rw [hf]
      exact h

theorem runOps_nonneg (ops : List Op) : ∀ t t2 : Timer, 0 ≤ t.sessionTime →
    runOps t ops = Except.ok t2 → 0 ≤ t2.sessionTime := by
  induction ops with
  | nil =>
    intro t t2 h hrun
    cases hrun
    exact h
  | cons op rest ih =>
    intro t t2 h hrun
    simp only [runOps] at hrun
    cases hap : applyOp t op with
    | error e => rw [hap] at hrun; cases hrun
    | ok t1 =>
      rw [hap] at hrun
      simp only [Except.bind] at hrun
      exact ih t1 t2 (applyOp_nonneg t op h t1 hap) hrun

/-- C10: from any state with non-negative session time (in particular the
initial state with elapsedSeconds = 0), every completed public operation —
tick, adjust, select, create, toggle (start/pause), close — leaves the
session time non-negative, and so does every completed sequence of such
operations: transient negative values from a countdown decrement or a
negative adjustment are clamped back to 0 before the operation returns. -/
theorem C10_session_time_nonneg_invariant (t : Timer)
    (h : 0 ≤ t.sessionTime) :
    (∀ op : Op, ∀ t2, applyOp t op = Except.ok t2 → 0 ≤ t2.sessionTime)
  ∧ (∀ ops : List Op, ∀ t2, runOps t ops = Except.ok t2 →
       0 ≤ t2.sessionTime) :=
  ⟨fun op => applyOp_nonneg t op h,
   fun ops t2 hrun => runOps_nonneg ops t t2 h hrun⟩

/-- Witness for C10: a concrete run from the initial state through toggle,
tick and a clamping negative adjustment ends with session time 0 ≥ 0. -/
theorem C10_session_time_nonneg_invariant_witness :
    runOps ⟨TimerStatus.stopped, 0, none, 0, [], 0⟩
        [Op.toggle, Op.tick, Op.adjust (-5)]
      = Except.ok ⟨TimerStatus.paused, 0, none, 0, [], 0⟩
  ∧ 0 ≤ (⟨TimerStatus.paused, 0, none, 0, [], 0⟩ : Timer).sessionTime :=
  ⟨by with_unfolding_all rfl,
   (C10_session_time_nonneg_invariant ⟨TimerStatus.stopped, 0, none, 0, [], 0⟩
      (by norm_num)).2 [Op.toggle, Op.tick, Op.adjust (-5)]
      ⟨TimerStatus.paused, 0, none, 0, [], 0⟩ (by with_unfolding_all rfl)⟩
